import Mathlib

/-!
Verification of the word-guessing game core (`src/words.rs`, `src/game.rs`).

Shallow embedding conventions:
* `f32` vector components and similarity scores are modelled as exact
  rationals (`ℚ`); the dot product is the sum of elementwise products,
  exactly as in the source.
* The SQLite database is modelled as a `DB` record of row lists, one list
  per table, in insertion order.  `INTEGER PRIMARY KEY` rowids are assigned
  as max(existing id, 0) + 1, which is SQLite's behaviour for the
  non-negative ids that arise here, and `last_insert_rowid` is that value.
* `rusqlite::Connection::execute` prepares the FIRST statement of the given
  SQL string and then fails with `Error::MultipleStatement` if any statement
  text remains, executing nothing.  Both `execute` calls in
  `GameState::end_game` (game.rs lines 207-213 and 216-222) contain two
  `UPDATE` statements in one string; moreover the first statement of the
  winner branch is `UPDATE sessions SET end_date=?1, winner=?2 WHERE id=?3`,
  and `sessions` has no column named `winner` (the schema at game.rs line 48
  declares `winner_id`), so that branch already fails while preparing.
  Hence in the model `end_game` with an active session always returns an
  error and leaves both the database and the in-memory state unchanged,
  mirroring the source, where the early `?` return fires before
  `self.session_id = None`.
* Rust panics (an out-of-bounds slice in `Words::thesaurus`, `gen_range` on
  an empty range in `Words::pick_word`) are modelled by explicit
  constructors (`ThesaurusResult.panicked`, `GameError.panicked`); they are
  distinguished from `Result::Err` values by the accompanying comments.
* Randomness (`rand::thread_rng` in `pick_word`) and wall-clock time
  (`SystemTime::now`) are threaded in as explicit parameters (`r`, `now`).
-/

/-- The word database: `Words` from words.rs, a vocabulary of
(term, embedding vector) pairs in file order. -/
structure Words where
  vocabulary : List (String × List ℚ)
deriving DecidableEq

/-- Sum of elementwise products, as in the Rust
`a.iter().zip(b.iter()).map(|(&a, &b)| a * b).sum()` (zip truncates to the
shorter list). -/
def dot (a b : List ℚ) : ℚ :=
  (List.zipWith (fun x y => x * y) a b).sum

/-- `Words::vector` (words.rs lines 25-30): position of the first entry whose
term equals `word`, then that entry's vector. -/
def Words.vector (w : Words) (word : String) : Option (List ℚ) :=
  (w.vocabulary.find? (fun x => x.1 == word)).map (fun x => x.2)

/-- Result of `Words::thesaurus` up to the final `format!`: `ok none` is the
`None` ("word not found") result, `ok (some l)` the `Some` result list, and
`panicked` the out-of-bounds slice panic of `metrics[1..count + 1]` when
`count + 1` exceeds the length of `metrics`. -/
inductive ThesaurusResult where
  | ok : Option (List (String × ℚ)) → ThesaurusResult
  | panicked : ThesaurusResult
deriving DecidableEq

/-- The sort order of `Words::thesaurus`: the Rust comparator
`|a, b| b.1.partial_cmp(&a.1).unwrap_or(Equal)`, i.e. descending
similarity.  On `ℚ` the comparison is a total order and the NaN fallback
`unwrap_or(Equal)` is never taken. -/
def thesaurusOrder (a b : Nat × ℚ) : Prop := b.2 ≤ a.2

instance : DecidableRel thesaurusOrder :=
  fun a b => inferInstanceAs (Decidable (b.2 ≤ a.2))

instance : IsTotal (Nat × ℚ) thesaurusOrder :=
  ⟨fun a b => le_total b.2 a.2⟩

instance : IsTrans (Nat × ℚ) thesaurusOrder :=
  ⟨fun _ _ _ hab hbc => le_trans hbc hab⟩

/-- `Words::thesaurus` (words.rs lines 33-58).  `metrics` pairs each
vocabulary index with the dot product against the anchor's vector.  The
sort is Rust's `sort_by`, a stable sort; since a stable sort's output is
uniquely determined by the comparator and the input order, it is modelled
by the (stable) `List.insertionSort` under `thesaurusOrder`.  The slice
`metrics[1..count + 1]` is in bounds exactly when `count + 1 ≤ len`, and
panics otherwise.  The vocabulary lookup `self.vocabulary[idx]` is always in
bounds because the indices come from `enumerate`; the `getD` default is
never used. -/
def Words.thesaurus (w : Words) (word : String) (count : Nat) : ThesaurusResult :=
  match w.vector word with
  | some val =>
    let metrics : List (Nat × ℚ) :=
      w.vocabulary.enum.map (fun p => (p.1, dot val p.2.2))
    let sorted := metrics.insertionSort thesaurusOrder
    if count + 1 ≤ sorted.length then
      ThesaurusResult.ok (some (((sorted.drop 1).take count).map
        (fun p => (((w.vocabulary[p.1]?).getD ("", [])).1, p.2))))
    else
      ThesaurusResult.panicked
  | none => ThesaurusResult.ok none

/-- `Words::pick_word` (words.rs lines 61-65): draws index
`r ∈ [0, len)` from the RNG; the RNG output is modelled as `r % len`, and the
`none` case (empty vocabulary, where `gen_range(0..0)` panics) marks a Rust
panic. -/
def Words.pick_word (w : Words) (r : Nat) : Option String :=
  (w.vocabulary[r % w.vocabulary.length]?).map (fun x => x.1)

/-- A row of the `players` table (schema at game.rs lines 37-40). -/
structure PlayerRow where
  id : Int
  nick : String
  score : Option Int
deriving DecidableEq

/-- A row of the `sessions` table (schema at game.rs lines 42-49). -/
structure SessionRow where
  id : Int
  start_date : Option Nat
  end_date : Option Nat
  planned_end_date : Option Nat
  word : String
  winner_id : Option Int
  playing : Option Int
deriving DecidableEq

/-- A row of the `guesses` table (schema at game.rs lines 57-62). -/
structure GuessRow where
  id : Int
  session_id : Option Int
  player_id : Option Int
  guess : String
  cosine : Option ℚ
deriving DecidableEq

/-- The SQLite database.  `current_session` is the `session_id` column of the
singleton row (id = 0) of the `current_session` table, which
`setup_schema` guarantees exists. -/
structure DB where
  players : List PlayerRow
  sessions : List SessionRow
  current_session : Option Int
  guesses : List GuessRow
deriving DecidableEq

/-- SQLite's rowid assignment for `INTEGER PRIMARY KEY` columns left NULL on
insert: one more than the largest existing rowid (all rowids here are
positive). -/
def nextId (ids : List Int) : Int :=
  ids.foldl max 0 + 1

/-- The database produced by `setup_schema` on a fresh file: empty tables and
the `INSERT OR IGNORE` singleton `current_session` row with NULL
`session_id`. -/
def DB.init : DB :=
  { players := [], sessions := [], current_session := none, guesses := [] }

/-- `setup_schema` (game.rs lines 29-67) on an already-initialised database:
`CREATE TABLE IF NOT EXISTS` and `INSERT OR IGNORE` leave it unchanged.
(`DB.init` is its result on a fresh file.) -/
def setup_schema (db : DB) : DB := db

/-- `Outcome` (game.rs lines 70-80). -/
inductive Outcome where
  | win
  | miss (distance : ℚ)
  | unknownWord
deriving DecidableEq

/-- The distinct failure modes surfacing through `anyhow::Result` in game.rs,
plus an explicit marker for Rust panics. -/
inductive GameError where
  /-- The message "there's no game in progress" raised by the two `bail!`
  calls (game.rs lines 144 and 227). -/
  | noGame
  /-- SQL prepare error inside `end_game`'s winner branch: the `UPDATE`
  references column `winner`, which does not exist (the schema declares
  `winner_id`). -/
  | noSuchColumnWinner
  /-- `rusqlite::Error::MultipleStatement`: `Connection::execute` given a
  string that still has statement text after the first statement. -/
  | multipleStatement
  /-- The message "could not find target word in vocabulary: this is a bug"
  (game.rs lines 182-184). -/
  | invariantViolation
  /-- `rusqlite::Error::QueryReturnedNoRows` from `query_row`. -/
  | queryReturnedNoRows
  /-- `rusqlite` column type error: NULL read into a non-nullable Rust
  type (the `planned_end_date` read in `load`). -/
  | invalidColumnType
  /-- Marks a Rust panic (not a `Result` error): `gen_range` on the empty
  range when the vocabulary is empty. -/
  | panicked
deriving DecidableEq

/-- `GameState` (game.rs lines 82-90): the database connection is the `DB`
value, `session_id` and `word` mirror the in-memory fields. -/
structure GameState where
  db : DB
  session_id : Option Int
  word : String
  words : Words
deriving DecidableEq

/-- `GameState::load` (game.rs lines 93-127): run `setup_schema`, read the
`current_session` pointer; if set, read `planned_end_date` and `word` from
that session row (failing like `query_row` does when the row is missing, or
when `planned_end_date` is NULL and cannot be read as `u64`). -/
def GameState.load (db : DB) (words : Words) : Except GameError GameState :=
  let db := setup_schema db
  match db.current_session with
  | some session_id =>
    match db.sessions.find? (fun r => r.id == session_id) with
    | none => Except.error GameError.queryReturnedNoRows
    | some row =>
      match row.planned_end_date with
      | none => Except.error GameError.invalidColumnType
      | some _ =>
        Except.ok { db := db, session_id := some session_id, word := row.word, words := words }
  | none => Except.ok { db := db, session_id := none, word := "", words := words }

/-- `GameState::insert_guess` (game.rs lines 130-136): a single-statement
INSERT into `guesses`; it only fails on an underlying storage fault, which
is not part of this deterministic model, so here it always succeeds. -/
def GameState.insert_guess (gs : GameState) (session_id : Int) (guess : String)
    (player_id : Int) (cosine : ℚ) : GameState :=
  { gs with db := { gs.db with guesses := gs.db.guesses ++
      [{ id := nextId (gs.db.guesses.map (fun r => r.id)),
         session_id := some session_id, player_id := some player_id,
         guess := guess, cosine := some cosine }] } }

/-- `GameState::end_game` (game.rs lines 201-229).  Both branches hand
`Connection::execute` a string containing two `UPDATE` statements, which
`execute` rejects; the winner branch fails even earlier, while preparing its
first statement, because `sessions` has no column `winner`.  Nothing is
written, the error propagates through `?` before `self.session_id = None`
is reached, so the state is returned unchanged alongside the error. -/
def GameState.end_game (gs : GameState) (winner_id : Option Int) :
    GameState × Except GameError Unit :=
  match gs.session_id with
  | some _ =>
    match winner_id with
    | some _ => (gs, Except.error GameError.noSuchColumnWinner)
    | none => (gs, Except.error GameError.multipleStatement)
  | none => (gs, Except.error GameError.noGame)

/-- `GameState::process_guess` (game.rs lines 139-199), with state threaded
explicitly: mutations made before an error escape through `?` persist, as
they do on the live connection.  Note that on the winning path the source
discards `end_game`'s `Result` (game.rs line 193, no `?`), so the statement
failure inside `end_game` is swallowed and `Ok(Win)` is returned. -/
def GameState.process_guess (gs : GameState) (player_nick : String) (guess : String) :
    GameState × Except GameError Outcome :=
  match gs.session_id with
  | none => (gs, Except.error GameError.noGame)
  | some session_id =>
    -- query or insert player ID (query_row …optional, then INSERT + last_insert_rowid)
    let resolved : GameState × Int :=
      match gs.db.players.find? (fun p => p.nick == player_nick) with
      | some p => (gs, p.id)
      | none =>
        let pid := nextId (gs.db.players.map (fun p => p.id))
        ({ gs with db := { gs.db with players := gs.db.players ++
            [{ id := pid, nick := player_nick, score := some 0 }] } }, pid)
    let gs := resolved.1
    let player_id := resolved.2
    -- cleanup guess: trim().to_lowercase()
    let guess := guess.trim.toLower
    match gs.words.vector guess with
    | none => (gs, Except.ok Outcome.unknownWord)
    | some v_guess =>
      let distRes : Except GameError ℚ :=
        if guess = gs.word then Except.ok 1
        else
          match gs.words.vector gs.word with
          | none => Except.error GameError.invariantViolation
          | some v_target => Except.ok (dot v_guess v_target)
      match distRes with
      | Except.error e => (gs, Except.error e)
      | Except.ok distance =>
        let gs := gs.insert_guess session_id guess player_id distance
        if distance = 1 then
          -- the Result of end_game is dropped in the source (game.rs line 193)
          let ended := gs.end_game (some player_id)
          (ended.1, Except.ok Outcome.win)
        else
          (gs, Except.ok (Outcome.miss distance))

/-- `GameState::start_game` (game.rs lines 232-265): end any game in
progress (propagating failure through `?`), pick a word (`pick_word` panics
on an empty vocabulary), insert the new session row — `end_date`,
`winner_id` and `playing` are not named in the INSERT and stay NULL — and
point `current_session` at it.  `now` is the wall clock in Unix seconds and
`r` the RNG draw. -/
def GameState.start_game (gs : GameState) (game_duration : Nat) (now : Nat) (r : Nat) :
    GameState × Except GameError Unit :=
  let ended : GameState × Except GameError Unit :=
    if gs.session_id.isSome then gs.end_game none else (gs, Except.ok ())
  match ended with
  | (gs, Except.error e) => (gs, Except.error e)
  | (gs, Except.ok _) =>
    match gs.words.pick_word r with
    | none => (gs, Except.error GameError.panicked)
    | some word =>
      let start_time_unix := now
      let end_time_unix := now + game_duration
      let session_id := nextId (gs.db.sessions.map (fun s => s.id))
      let row : SessionRow :=
        { id := session_id, start_date := some start_time_unix, end_date := none,
          planned_end_date := some end_time_unix, word := word,
          winner_id := none, playing := none }
      let gs := { gs with db := { gs.db with sessions := gs.db.sessions ++ [row] } }
      let gs := { gs with db := { gs.db with current_session := some session_id } }
      ({ gs with session_id := some session_id }, Except.ok ())

deriving instance DecidableEq for Except

/-- `end_game` never mutates the state: every branch of the source either
`bail!`s immediately or propagates the statement failure through `?` before
`self.session_id = None` is reached, and no SQL executes. -/
theorem end_game_fst (gs : GameState) (w : Option Int) : (gs.end_game w).1 = gs := by
  rcases gs with ⟨db, sid, word, words⟩
  cases sid <;> cases w <;> rfl

/-- A one-word vocabulary: "cat" with the (normalised) embedding [1]. -/
def wordsC : Words := ⟨[("cat", [1])]⟩

/-- An active session row for the word "cat". -/
def rowC : SessionRow :=
  { id := 1, start_date := some 100, end_date := none,
    planned_end_date := some 200, word := "cat", winner_id := none, playing := none }

/-- A database holding exactly the active session `rowC`. -/
def dbC : DB :=
  { players := [], sessions := [rowC], current_session := some 1, guesses := [] }

/-- An engine state with session 1 active and secret word "cat", consistent
with `dbC` (as produced by `GameState.load`). -/
def gsC : GameState :=
  { db := dbC, session_id := some 1, word := "cat", words := wordsC }

/-- The player row created for "alice" on her first guess. -/
def playerAlice : PlayerRow := { id := 1, nick := "alice", score := some 0 }

/-- The guess row recorded for alice's winning guess "cat". -/
def guessRowCat : GuessRow :=
  { id := 1, session_id := some 1, player_id := some 1, guess := "cat", cosine := some 1 }

/-- `gsC` right after the player row and the winning guess row were written,
i.e. the state at which `process_guess` reaches its `end_game` call. -/
def gsMid : GameState :=
  { db := { players := [playerAlice], sessions := [rowC],
            current_session := some 1, guesses := [guessRowCat] },
    session_id := some 1, word := "cat", words := wordsC }

/-- A two-word vocabulary with distinct, non-normalised vectors: the dot
product of "a" with "b" (2) exceeds the self dot product of "a" (1). -/
def wordsAB : Words := ⟨[("a", [1]), ("b", [2])]⟩

/-- A two-word vocabulary in which "a" and "b" have the same unit vector, so
their mutual dot product is exactly 1. -/
def wordsDup : Words := ⟨[("a", [1]), ("b", [1])]⟩

/-- An active session row for the word "a". -/
def rowDup : SessionRow :=
  { id := 1, start_date := some 100, end_date := none,
    planned_end_date := some 200, word := "a", winner_id := none, playing := none }

/-- An engine state over `wordsDup` with secret word "a". -/
def gsDup : GameState :=
  { db := { players := [], sessions := [rowDup], current_session := some 1, guesses := [] },
    session_id := some 1, word := "a", words := wordsDup }

/-- The engine state right after `GameState::load` on a fresh database:
no session, word is the empty string. -/
def gs0 : GameState :=
  { db := DB.init, session_id := none, word := "", words := wordsC }

/-- C1: refutation by evaluation.  With session 1 active, secret word "cat"
and vocabulary `wordsC`, alice's exact guess "cat" makes `process_guess`
return `Win`, yet afterwards the current-session pointer is still set, the
session row has no winner recorded, and the in-memory session is still
active: the `end_game` call failed (its UPDATE names the nonexistent column
`winner` and its SQL string holds two statements) and the error was
discarded at game.rs line 193. -/
theorem processGuess_win_leaves_session_active :
    (gsC.process_guess "alice" "cat").2 = Except.ok Outcome.win ∧
    (gsC.process_guess "alice" "cat").1.db.current_session = some 1 ∧
    (gsC.process_guess "alice" "cat").1.db.sessions.map (fun s => s.winner_id) = [none] ∧
    (gsC.process_guess "alice" "cat").1.session_id = some 1 := by
  refine ⟨?_, ?_, ?_, ?_⟩ <;> with_unfolding_all rfl

/-- C2: refutation by evaluation.  On the winning path, `process_guess`
reaches `end_game` in state `gsMid`; that call fails with a storage error,
yet `process_guess` returns `Ok(Win)` in that very state — the persistence
error of the session-ending write is not propagated to the caller (the
`Result` is dropped at game.rs line 193). -/
theorem processGuess_win_swallows_storage_error :
    gsC.process_guess "alice" "cat" = (gsMid, Except.ok Outcome.win) ∧
    gsMid.end_game (some 1) = (gsMid, Except.error GameError.noSuchColumnWinner) := by
  constructor <;> with_unfolding_all rfl

/-- C5: refutation by evaluation.  Calling `start_game` while session 1 is
active first calls `end_game(None)`, whose two-statement SQL string is
rejected by `Connection::execute`; the `?` at game.rs line 234 propagates
the error, so no prior session is ended and no new session is created: the
state is returned entirely unchanged alongside the error. -/
theorem startGame_with_active_session_fails :
    gsC.start_game 86400 1000 0 = (gsC, Except.error GameError.multipleStatement) := by
  with_unfolding_all rfl

/-- C9: refutation by evaluation.  From the freshly loaded state `gs0`,
`start_game` succeeds and draws the word "cat", but never assigns
`self.word` (game.rs lines 236-257 update only `self.session_id`), so the
in-memory secret word is still the stale "".  Reloading from storage
reconstructs the same session id (1) but the word "cat" from the session
row — which differs from the in-memory word held before the restart. -/
theorem startGame_stale_memory_word :
    (gs0.start_game 86400 1000 0).2 = Except.ok () ∧
    GameState.load (gs0.start_game 86400 1000 0).1.db wordsC =
      Except.ok { db := (gs0.start_game 86400 1000 0).1.db, session_id := some 1,
                  word := "cat", words := wordsC } ∧
    (gs0.start_game 86400 1000 0).1.session_id = some 1 ∧
    (gs0.start_game 86400 1000 0).1.word = "" := by
  refine ⟨?_, ?_, ?_, ?_⟩ <;> with_unfolding_all rfl

/-- C3: counterexample.  In `wordsAB` the term "a" has exactly 1 other
vocabulary entry, and `count = 2` is strictly greater; the claim promises
the remaining entries sorted (that would be `[("b", 2)]`), but the slice
`metrics[1..3]` of the 2-element sorted list is out of bounds and the code
panics. -/
theorem thesaurus_overflow_cex :
    wordsAB.thesaurus "a" 2 = ThesaurusResult.panicked ∧
    wordsAB.thesaurus "a" 2 ≠ ThesaurusResult.ok (some [("b", 2)]) := by
  constructor
  · with_unfolding_all rfl
  · with_unfolding_all decide

/-- C8: counterexample.  With the non-normalised vectors of `wordsAB`, the
entry "b" (dot product 2 with "a") sorts above the anchor's self dot
product (1), so dropping only `metrics[0]` drops "b" — and the result for
anchor "a" contains "a" itself. -/
theorem thesaurus_includes_anchor_cex :
    wordsAB.thesaurus "a" 1 = ThesaurusResult.ok (some [("a", 1)]) := by
  with_unfolding_all rfl

/-- C4: counterexample.  In `wordsDup` the words "a" and "b" carry the same
unit vector, so guessing "b" against secret word "a" records similarity
exactly 1.0 — and wins — although the normalized guess text differs from
the secret word: similarity 1.0 does not imply a textual match. -/
theorem similarity_one_without_match_cex :
    (gsDup.process_guess "alice" "b").1.db.guesses.map (fun g => g.cosine) = [some 1] ∧
    "b".trim.toLower ≠ gsDup.word ∧
    (gsDup.process_guess "alice" "b").2 = Except.ok Outcome.win := by
  refine ⟨?_, ?_, ?_⟩
  · with_unfolding_all rfl
  · with_unfolding_all decide
  · with_unfolding_all rfl

/-- C7: whenever no session is active, `process_guess` bails out with the
"there's no game in progress" error before touching the database: the entire
state (all four tables included) is returned unchanged. -/
theorem processGuess_no_session (gs : GameState) (nick guess : String)
    (h : gs.session_id = none) :
    gs.process_guess nick guess = (gs, Except.error GameError.noGame) := by
  unfold GameState.process_guess
  rw [h]

/-- C6: with a session active, a guess whose normalized (trimmed,
lower-cased) text is not in the vocabulary yields `UnknownWord` and leaves
the `guesses` table exactly as it was.  (A player row may still be created,
which the claim permits; without an active session the call instead fails
early, see C7.) -/
theorem processGuess_unknown_word (gs : GameState) (nick guess : String) (sid : Int)
    (h1 : gs.session_id = some sid)
    (h2 : gs.words.vector guess.trim.toLower = none) :
    (gs.process_guess nick guess).2 = Except.ok Outcome.unknownWord ∧
    (gs.process_guess nick guess).1.db.guesses = gs.db.guesses := by
  obtain ⟨db, sid0, word, words⟩ := gs
  simp only [GameState.session_id] at h1
  simp only [GameState.words] at h2
  subst h1
  unfold GameState.process_guess
  cases hf : db.players.find? (fun p => p.nick == nick) <;>
    simp only [hf, h2] <;> exact ⟨trivial, trivial⟩

/-- C10: no core operation ever writes the `sessions.playing` column.
`process_guess` leaves the `sessions` table entirely unchanged, `end_game`
changes nothing at all, and `start_game` either changes no session row (on
failure) or appends exactly one row whose `playing` field is NULL — the
`playing` values of all pre-existing rows are preserved by every
operation, so session activity lives solely in the `current_session`
pointer. -/
theorem sessions_playing_frame (gs : GameState) (nick guess : String)
    (w : Option Int) (dur now r : Nat) :
    (gs.process_guess nick guess).1.db.sessions = gs.db.sessions ∧
    (gs.end_game w).1 = gs ∧
    ((gs.start_game dur now r).1.db.sessions.map (fun s => s.playing) =
        gs.db.sessions.map (fun s => s.playing) ∨
      (gs.start_game dur now r).1.db.sessions.map (fun s => s.playing) =
        gs.db.sessions.map (fun s => s.playing) ++ [none]) := by
  obtain ⟨db, sid0, word, words⟩ := gs
  refine ⟨?_, end_game_fst _ _, ?_⟩
  · unfold GameState.process_guess
    cases sid0 with
    | none => rfl
    | some sid =>
      cases hf : db.players.find? (fun p => p.nick == nick) <;> simp only [hf]
      all_goals cases hv : words.vector guess.trim.toLower <;> simp only [hv]
      all_goals by_cases hw : guess.trim.toLower = word <;>
        simp only [hw, if_true, if_false]
      all_goals try (cases hvt : words.vector word <;> simp only [hvt])
      all_goals try rfl
      all_goals try split
      all_goals try rfl
  · unfold GameState.start_game
    cases sid0 with
    | none =>
      simp only [Option.isSome_none, Bool.false_eq_true, if_false]
      cases hp : Words.pick_word words r with
      | none => simp [hp]
      | some word2 => simp [hp]
    | some sid =>
      simp only [Option.isSome_some, if_true]
      left
      rfl

/-- C3 (amended): for a term in the vocabulary and a count strictly greater
than the number of other vocabulary entries, `thesaurus` does not return
the remaining entries — it panics, because the slice
`metrics[1..count + 1]` exceeds the length of the sorted metrics list. -/
theorem thesaurus_count_overflow (w : Words) (word : String) (count : Nat)
    (v : List ℚ) (hv : w.vector word = some v)
    (hc : w.vocabulary.length - 1 < count) :
    w.thesaurus word count = ThesaurusResult.panicked := by
  have hpos : 1 ≤ w.vocabulary.length := by
    rcases hf : w.vocabulary.find? (fun x => x.1 == word) with _ | x
    · rw [Words.vector, hf] at hv
      simp at hv
    · have hm := List.mem_of_find?_eq_some hf
      exact List.length_pos.mpr (List.ne_nil_of_mem hm)
  unfold Words.thesaurus
  rw [hv]
  simp only [List.length_insertionSort, List.length_map, List.enum_length]
  rw [if_neg (by omega)]

/-- C8 (amended): every result list `thesaurus` actually returns is sorted
by non-increasing similarity.  (The other half of the original claim —
that the anchor term never appears — is refuted by
`thesaurus_includes_anchor_cex`: the code drops only the top-ranked entry
of the sorted list, which need not be the anchor.) -/
theorem thesaurus_sorted (w : Words) (word : String) (count : Nat)
    (res : List (String × ℚ))
    (h : w.thesaurus word count = ThesaurusResult.ok (some res)) :
    (res.map (fun p => p.2)).Pairwise (fun a b => b ≤ a) := by
  unfold Words.thesaurus at h
  rcases hv : w.vector word with _ | v
  · rw [hv] at h
    simp at h
  · rw [hv] at h
    dsimp only [] at h
    by_cases hc : count + 1 ≤
        ((w.vocabulary.enum.map (fun p => (p.1, dot v p.2.2))).insertionSort thesaurusOrder).length
    · rw [if_pos hc] at h
      have hres : res = ((((w.vocabulary.enum.map
            (fun p => (p.1, dot v p.2.2))).insertionSort thesaurusOrder).drop 1).take count).map
            (fun p => (((w.vocabulary[p.1]?).getD ("", [])).1, p.2)) := by
        injection h with h
        injection h with h
        exact h.symm
      subst hres
      have hs : ((w.vocabulary.enum.map
          (fun p => (p.1, dot v p.2.2))).insertionSort thesaurusOrder).Pairwise thesaurusOrder :=
        List.sorted_insertionSort thesaurusOrder _
      have hsub : List.Sublist
          ((((w.vocabulary.enum.map
            (fun p => (p.1, dot v p.2.2))).insertionSort thesaurusOrder).drop 1).take count)
          ((w.vocabulary.enum.map (fun p => (p.1, dot v p.2.2))).insertionSort thesaurusOrder) :=
        (List.take_sublist _ _).trans (List.drop_sublist _ _)
      have hp := hs.sublist hsub
      rw [List.map_map]
      rw [List.pairwise_map]
      exact hp
    · rw [if_neg hc] at h
      exact ThesaurusResult.noConfusion h

/-- C4 (amended): for a processed guess (session active, normalized guess
in the vocabulary, secret word in the vocabulary), the recorded similarity
is 1.0 when the normalized guess equals the in-memory secret word and the
dot product of the two vectors otherwise, exactly one guess row is
appended with that similarity, and `process_guess` returns `Win` if and
only if the recorded similarity equals 1.0.  The converse text-match
direction of the original claim is refuted by
`similarity_one_without_match_cex`. -/
theorem processGuess_similarity (gs : GameState) (nick guess : String) (sid : Int)
    (v vt : List ℚ)
    (h1 : gs.session_id = some sid)
    (h2 : gs.words.vector guess.trim.toLower = some v)
    (h3 : gs.words.vector gs.word = some vt) :
    (gs.process_guess nick guess).1.db.guesses.map (fun g => g.cosine) =
      gs.db.guesses.map (fun g => g.cosine) ++
        [some (if guess.trim.toLower = gs.word then 1 else dot v vt)] ∧
    ((gs.process_guess nick guess).2 = Except.ok Outcome.win ↔
      (if guess.trim.toLower = gs.word then (1 : ℚ) else dot v vt) = 1) ∧
    (guess.trim.toLower = gs.word →
      (if guess.trim.toLower = gs.word then (1 : ℚ) else dot v vt) = 1) := by
  obtain ⟨db, sid0, word, words⟩ := gs
  simp only [GameState.session_id] at h1
  simp only [GameState.words] at h2 h3
  simp only [GameState.word] at h3 ⊢
  subst h1
  unfold GameState.process_guess
  cases hf : db.players.find? (fun p => p.nick == nick) <;>
    simp only [hf, h2] <;>
    by_cases hw : guess.trim.toLower = word <;>
      simp only [hw, if_true, if_false, h3, GameState.insert_guess] <;>
      refine ⟨?_, ?_, ?_⟩ <;>
      try simp [end_game_fst]
  all_goals by_cases hd : dot v vt = 1 <;> simp [hd, end_game_fst]

/-- C7 witness: the freshly loaded state `gs0` has no session, and the
theorem applies to it. -/
theorem processGuess_no_session_witness :
    gs0.session_id = none ∧
    gs0.process_guess "alice" "cat" = (gs0, Except.error GameError.noGame) :=
  ⟨rfl, processGuess_no_session gs0 "alice" "cat" rfl⟩

/-- C6 witness: in `gsC`, the out-of-vocabulary guess "xyzzy" satisfies the
hypotheses, and the theorem applies. -/
theorem processGuess_unknown_word_witness :
    gsC.session_id = some 1 ∧
    gsC.words.vector ("xyzzy".trim.toLower) = none ∧
    ((gsC.process_guess "alice" "xyzzy").2 = Except.ok Outcome.unknownWord ∧
      (gsC.process_guess "alice" "xyzzy").1.db.guesses = gsC.db.guesses) :=
  ⟨rfl, by with_unfolding_all rfl,
    processGuess_unknown_word gsC "alice" "xyzzy" 1 rfl (by with_unfolding_all rfl)⟩

/-- C3 witness: in `wordsAB`, the anchor "a" with count 2 satisfies the
hypotheses, and the theorem applies. -/
theorem thesaurus_count_overflow_witness :
    wordsAB.vector "a" = some [1] ∧
    wordsAB.vocabulary.length - 1 < 2 ∧
    wordsAB.thesaurus "a" 2 = ThesaurusResult.panicked :=
  ⟨rfl, by decide, thesaurus_count_overflow wordsAB "a" 2 [1] rfl (by decide)⟩

/-- C8 witness: the `thesaurus` query over `wordsAB` for anchor "a" with
count 1 returns a list, and the theorem applies to it. -/
theorem thesaurus_sorted_witness :
    wordsAB.thesaurus "a" 1 = ThesaurusResult.ok (some [("a", 1)]) ∧
    (([("a", (1 : ℚ))]).map (fun p => p.2)).Pairwise (fun a b => b ≤ a) :=
  ⟨by with_unfolding_all rfl,
    thesaurus_sorted wordsAB "a" 1 [("a", 1)] (by with_unfolding_all rfl)⟩

/-- C4 witness: alice's winning guess "cat" in `gsC` satisfies the
hypotheses, and the theorem applies. -/
theorem processGuess_similarity_witness :
    gsC.session_id = some 1 ∧
    gsC.words.vector ("cat".trim.toLower) = some [1] ∧
    gsC.words.vector gsC.word = some [1] ∧
    ((gsC.process_guess "alice" "cat").1.db.guesses.map (fun g => g.cosine) =
        gsC.db.guesses.map (fun g => g.cosine) ++
          [some (if "cat".trim.toLower = gsC.word then 1 else dot [1] [1])] ∧
      ((gsC.process_guess "alice" "cat").2 = Except.ok Outcome.win ↔
        (if "cat".trim.toLower = gsC.word then (1 : ℚ) else dot [1] [1]) = 1) ∧
      ("cat".trim.toLower = gsC.word →
        (if "cat".trim.toLower = gsC.word then (1 : ℚ) else dot [1] [1]) = 1)) :=
  ⟨rfl, by with_unfolding_all rfl, by with_unfolding_all rfl,
    processGuess_similarity gsC "alice" "cat" 1 [1] [1] rfl
      (by with_unfolding_all rfl) (by with_unfolding_all rfl)⟩
